import Mathlib

/-!
Verification of the esp32-s3_insta221 heat-press controller core:
the supervisory safety logic in `main/main.c`, the settings validation in
`main/data_model.c`, the PID controller in `main/pid/pid_controller.c`
and the relay-feedback auto-tuner in `main/pid/pid_autotune.c`.

Machine floats are embedded as exact rationals, and `uint32_t` / `uint64_t`
timestamps as naturals with explicit wrap-around subtraction.
-/

namespace Insta221

def MAX_TEMPERATURE : ℚ := 220
def HEAP_MINIMUM : ℕ := 8192
def SENSOR_TIMEOUT_SEC : ℕ := 30
def SENSOR_VALIDATION_TIMEOUT_SEC : ℕ := 10
def MAX_CYCLE_TIME : ℕ := 300
def TEMP_PRESSING_MAX_OFFSET : ℚ := 20
def TEMP_CYCLE_START_MIN : ℚ := 20
def TEMP_CYCLE_START_MAX_OFFSET : ℚ := 30
def TEMP_RECOVERY_OFFSET : ℚ := 10
def TEMP_HYSTERESIS : ℚ := 5
def PID_MIN_UPDATE_INTERVAL_MS : ℚ := 100

/-- `uint32_t` subtraction `a - b` (modular). -/
def sub32 (a b : ℕ) : ℕ := ((a % 2 ^ 32) + 2 ^ 32 - (b % 2 ^ 32)) % 2 ^ 32

/-- `uint64_t` subtraction `a - b` (modular). -/
def sub64 (a b : ℕ) : ℕ := ((a % 2 ^ 64) + 2 ^ 64 - (b % 2 ^ 64)) % 2 ^ 64

inductive PrintingType
  | SINGLE_SIDED
  | DOUBLE_SIDED
deriving DecidableEq, Repr

inductive ShirtSide
  | FRONT
  | BACK
deriving DecidableEq, Repr

inductive CycleStatus
  | IDLE
  | STAGE1
  | STAGE2
  | COMPLETE
deriving DecidableEq, Repr

structure PressingCycle where
  shirt_id : ℕ
  side : ShirtSide
  stage1_duration : ℕ
  stage2_duration : ℕ
  start_time : ℕ
  status : CycleStatus
deriving DecidableEq, Repr

structure Settings where
  target_temp : ℚ
  pid_kp : ℚ
  pid_ki : ℚ
  pid_kd : ℚ
  stage1_default : ℕ
  stage2_default : ℕ
deriving DecidableEq, Repr

structure PrintRun where
  id : ℕ
  num_shirts : ℕ
  print_type : PrintingType
  progress : ℕ
  time_elapsed : ℕ
  shirts_completed : ℕ
  avg_time_per_shirt : ℕ
deriving DecidableEq, Repr

structure Statistics where
  total_presses : ℕ
  presses_since_pid_tune : ℕ
  presses_in_tolerance : ℕ
  emergency_stops : ℕ
deriving DecidableEq, Repr

/-- UI states referenced by the pressing-cycle state machine. -/
inductive UiState
  | MAIN
  | STAGE1_DONE
  | STAGE2_DONE
  | CYCLE_COMPLETE
  | OTHER
deriving DecidableEq, Repr

/-- The global variables of `main.c` that the safety and cycle logic touches. -/
structure SystemState where
  emergency_shutdown : Bool
  system_healthy : Bool
  pressing_active : Bool
  pause_mode : Bool
  press_safety_locked : Bool
  heating_was_on : Bool
  sensor_error_count : ℕ
  current_temperature : ℚ
  last_temp_reading : ℕ
  target_temp_reached_once : Bool
  heating_duty : ℕ
  led_green : Bool
  led_blue : Bool
  current_stage : CycleStatus
  cycle_start_time : ℕ
  stage_start_time : ℕ
  run_start_time : ℕ
  state_transition_time : ℕ
  ui_state : UiState
  free_press_mode : Bool
  free_press_run_start_time : ℕ
  current_cycle : PressingCycle
  settings : Settings
  print_run : PrintRun
  statistics : Statistics
deriving DecidableEq, Repr

/-- External readings the code polls: `esp_timer_get_time()/1000000`,
`esp_get_free_heap_size()` and `sensor_is_operational()`. -/
structure Env where
  now : ℕ
  free_heap : ℕ
  sensor_operational : Bool
deriving DecidableEq, Repr

/-- `heating_set_power`: clamp to 100 %, convert to an 8-bit PWM duty. -/
def heating_set_power (power_percent : ℕ) : ℕ :=
  (min power_percent 100) * 255 / 100

/-- `heating_is_active`: the PWM duty is non-zero. -/
def heating_is_active (st : SystemState) : Bool := 0 < st.heating_duty

def check_system_safety (st : SystemState) (env : Env) : Bool :=
  if MAX_TEMPERATURE < st.current_temperature then false
  else if env.free_heap < HEAP_MINIMUM then false
  else if SENSOR_TIMEOUT_SEC < sub32 env.now st.last_temp_reading then false
  else if st.emergency_shutdown then false
  else true

/-- A healthy state at temperature `t`: fresh reading, ample heap, no shutdown. -/
def stateAtTemp (t : ℚ) : SystemState where
  emergency_shutdown := false
  system_healthy := true
  pressing_active := false
  pause_mode := false
  press_safety_locked := true
  heating_was_on := false
  sensor_error_count := 0
  current_temperature := t
  last_temp_reading := 1000
  target_temp_reached_once := true
  heating_duty := 0
  led_green := false
  led_blue := false
  current_stage := CycleStatus.IDLE
  cycle_start_time := 0
  stage_start_time := 0
  run_start_time := 0
  state_transition_time := 0
  ui_state := UiState.MAIN
  free_press_mode := false
  free_press_run_start_time := 0
  current_cycle :=
    { shirt_id := 0, side := ShirtSide.FRONT, stage1_duration := 15
      stage2_duration := 5, start_time := 0, status := CycleStatus.IDLE }
  settings :=
    { target_temp := 140, pid_kp := 2, pid_ki := 1/10, pid_kd := 1
      stage1_default := 15, stage2_default := 5 }
  print_run :=
    { id := 1, num_shirts := 10, print_type := PrintingType.SINGLE_SIDED
      progress := 0, time_elapsed := 0, shirts_completed := 0, avg_time_per_shirt := 0 }
  statistics :=
    { total_presses := 0, presses_since_pid_tune := 0
      presses_in_tolerance := 0, emergency_stops := 0 }

def freshEnv : Env where
  now := 1005
  free_heap := 100000
  sensor_operational := true

def emergency_shutdown_system (st : SystemState) : SystemState :=
  if st.emergency_shutdown then st
  else
    { st with
      emergency_shutdown := true
      system_healthy := false
      statistics :=
        { st.statistics with
          emergency_stops := (st.statistics.emergency_stops + 1) % 2 ^ 16 }
      heating_duty := heating_set_power 0
      pressing_active := false
      press_safety_locked := true
      pause_mode := false
      led_green := false
      led_blue := false
      current_stage := CycleStatus.IDLE
      cycle_start_time := 0
      stage_start_time := 0
      run_start_time := 0 }

def reset_error_state (st : SystemState) (env : Env) : SystemState :=
  if !st.emergency_shutdown then st
  else
    let temp_safe :=
      TEMP_CYCLE_START_MIN ≤ st.current_temperature ∧
      st.current_temperature < st.settings.target_temp + TEMP_RECOVERY_OFFSET
    let heap_safe := HEAP_MINIMUM * 2 < env.free_heap
    let sensor_responding := env.sensor_operational = true
    let recent_sensor_reading :=
      sub32 env.now st.last_temp_reading < SENSOR_VALIDATION_TIMEOUT_SEC
    if temp_safe ∧ heap_safe ∧ sensor_responding ∧ recent_sensor_reading ∧
        st.pressing_active = false then
      { st with
        emergency_shutdown := false
        system_healthy := true
        sensor_error_count := 0
        press_safety_locked := true
        pause_mode := false
        heating_was_on := false
        led_green := false
        led_blue := false }
    else st

def update_pressing_cycle (st : SystemState) (env : Env) : SystemState :=
  if !st.pressing_active || st.emergency_shutdown then st
  else
    let cycle_elapsed := sub32 env.now st.cycle_start_time
    let stage_elapsed := sub32 env.now st.stage_start_time
    if MAX_CYCLE_TIME < cycle_elapsed then
      emergency_shutdown_system st
    else if st.settings.target_temp + TEMP_PRESSING_MAX_OFFSET < st.current_temperature then
      emergency_shutdown_system st
    else if st.current_stage = CycleStatus.STAGE1 ∧
        st.current_cycle.stage1_duration ≤ stage_elapsed then
      { st with
        current_stage := CycleStatus.IDLE
        current_cycle := { st.current_cycle with status := CycleStatus.IDLE }
        ui_state := UiState.STAGE1_DONE
        state_transition_time := env.now }
    else if st.current_stage = CycleStatus.STAGE2 ∧
        st.current_cycle.stage2_duration ≤ stage_elapsed then
      { st with
        ui_state := UiState.STAGE2_DONE
        state_transition_time := env.now }
    else st

def is_heat_press_ready (st : SystemState) : Bool :=
  if !st.target_temp_reached_once then false
  else if !heating_is_active st then false
  else if st.current_temperature < st.settings.target_temp - TEMP_HYSTERESIS ∨
      st.settings.target_temp + TEMP_HYSTERESIS < st.current_temperature then false
  else true

def validate_cycle_safety (st : SystemState) (env : Env) : Bool :=
  if !st.system_healthy || st.emergency_shutdown then false
  else if !is_heat_press_ready st then false
  else if st.settings.target_temp + TEMP_CYCLE_START_MAX_OFFSET < st.current_temperature then
    false
  else if st.current_temperature < TEMP_CYCLE_START_MIN then false
  else if env.free_heap < HEAP_MINIMUM then false
  else if SENSOR_VALIDATION_TIMEOUT_SEC < sub32 env.now st.last_temp_reading then false
  else true

def validate_pressing_cycle (cycle : PressingCycle) : Bool :=
  if cycle.stage1_duration = 0 ∨ cycle.stage2_duration = 0 then false
  else if cycle.side ≠ ShirtSide.FRONT ∧ cycle.side ≠ ShirtSide.BACK then false
  else true

def start_pressing_cycle (st : SystemState) (env : Env) : SystemState :=
  if !st.pressing_active && !st.emergency_shutdown && validate_cycle_safety st env then
    let cycle_start := env.now
    let st1 :=
      { st with
        pressing_active := true
        current_stage := CycleStatus.STAGE1
        cycle_start_time := cycle_start
        stage_start_time := cycle_start }
    let st2 :=
      if st1.free_press_mode then
        if st1.free_press_run_start_time = 0 then
          { st1 with free_press_run_start_time := cycle_start }
        else st1
      else
        if st1.run_start_time = 0 then
          { st1 with run_start_time := cycle_start }
        else st1
    let st3 :=
      { st2 with
        current_cycle :=
          { shirt_id := if st2.free_press_mode then 0 else (st2.print_run.progress + 1) % 2 ^ 16
            side := ShirtSide.FRONT
            stage1_duration := st2.settings.stage1_default
            stage2_duration := st2.settings.stage2_default
            start_time := cycle_start
            status := CycleStatus.STAGE1 } }
    if !validate_pressing_cycle st3.current_cycle then
      { st3 with pressing_active := false, current_stage := CycleStatus.IDLE }
    else st3
  else st

def validate_settings (s : Settings) : Bool :=
  if s.target_temp < 0 ∨ 250 < s.target_temp then false
  else if s.pid_kp < 0 ∨ s.pid_ki < 0 ∨ s.pid_kd < 0 then false
  else if s.stage1_default = 0 ∨ s.stage2_default = 0 then false
  else true

def validate_print_run (run : PrintRun) : Bool :=
  if run.num_shirts = 0 ∨ 999 < run.num_shirts then false
  else if run.num_shirts < run.progress then false
  else if run.print_type ≠ PrintingType.SINGLE_SIDED ∧
      run.print_type ≠ PrintingType.DOUBLE_SIDED then false
  else true

/-- `save_persistent_data`: what reaches NVS storage — the settings and the
print run are each persisted only when their validator accepts them. -/
def save_persistent_data (st : SystemState) : Option Settings × Option PrintRun :=
  ((if validate_settings st.settings then some st.settings else none),
   (if validate_print_run st.print_run then some st.print_run else none))

/-- A settings record with a stage-1 duration of 400 s; every other field is
well within its documented range. -/
def settingsStage400 : Settings where
  target_temp := 140
  pid_kp := 2
  pid_ki := 1/10
  pid_kd := 1
  stage1_default := 400
  stage2_default := 5

structure PidConfig where
  kp : ℚ
  ki : ℚ
  kd : ℚ
  setpoint : ℚ
  output_min : ℚ
  output_max : ℚ
deriving DecidableEq, Repr

structure PidController where
  config : PidConfig
  integral : ℚ
  prev_error : ℚ
  last_update_us : ℕ
  last_output : ℚ
deriving DecidableEq, Repr

/-- The `CLAMP` macro from `system_config.h`. -/
def CLAMP (value mn mx : ℚ) : ℚ :=
  if value < mn then mn else if mx < value then mx else value

def pid_controller_init (config : PidConfig) (now_us : ℕ) : PidController where
  config := config
  integral := 0
  prev_error := 0
  last_update_us := now_us
  last_output := 0

def pid_controller_update (pid : PidController) (measurement : ℚ) (now_us : ℕ) :
    PidController × ℚ :=
  let dt : ℚ := (sub64 now_us pid.last_update_us : ℚ) / 1000000
  if dt < PID_MIN_UPDATE_INTERVAL_MS / 1000 then (pid, pid.last_output)
  else
    let dt := if dt ≤ 0 then 1/1000 else dt
    let error := pid.config.setpoint - measurement
    let p_term := pid.config.kp * error
    let integral0 := pid.integral + error * dt
    let integral_limit := pid.config.output_max
    let integral :=
      if integral_limit < integral0 then integral_limit
      else if integral0 < -integral_limit then -integral_limit
      else integral0
    let i_term := pid.config.ki * integral
    let derivative := (error - pid.prev_error) / dt
    let d_term := pid.config.kd * derivative
    let output := CLAMP (p_term + i_term + d_term) pid.config.output_min pid.config.output_max
    ({ pid with
        last_update_us := now_us
        integral := integral
        prev_error := error
        last_output := output },
     output)

def pid_controller_reset (pid : PidController) (now_us : ℕ) : PidController :=
  { pid with
    integral := 0
    prev_error := 0
    last_update_us := now_us
    last_output := 0 }

def pid_controller_set_setpoint (pid : PidController) (new_setpoint : ℚ)
    (reset_integral : Bool) : PidController :=
  { pid with
    config := { pid.config with setpoint := new_setpoint }
    integral := if reset_integral then 0 else pid.integral }

/-- The controller states reachable by `pid_controller_init` followed by any
sequence of `pid_controller_update`, `pid_controller_set_setpoint` and
`pid_controller_reset` calls. -/
inductive PidReachable : PidController → Prop
  | init (config : PidConfig) (now_us : ℕ) :
      PidReachable (pid_controller_init config now_us)
  | update (pid : PidController) (measurement : ℚ) (now_us : ℕ) :
      PidReachable pid → PidReachable (pid_controller_update pid measurement now_us).1
  | set_setpoint (pid : PidController) (new_setpoint : ℚ) (reset_integral : Bool) :
      PidReachable pid →
      PidReachable (pid_controller_set_setpoint pid new_setpoint reset_integral)
  | reset (pid : PidController) (now_us : ℕ) :
      PidReachable pid → PidReachable (pid_controller_reset pid now_us)

/-- A configuration whose output window `[5, 100]` excludes zero. -/
def pidConfigMin5 : PidConfig where
  kp := 2
  ki := 0
  kd := 0
  setpoint := 140
  output_min := 5
  output_max := 100

/-- The PID configuration the firmware builds in `temp_control.c`. -/
def pidConfigFirmware : PidConfig where
  kp := 2
  ki := 1/10
  kd := 1
  setpoint := 140
  output_min := 0
  output_max := 100

inductive AutotuneState
  | IDLE
  | RELAY_STEP_UP
  | RELAY_STEP_DOWN
  | MEASURE_PERIOD
  | CALCULATING
  | COMPLETE
  | FAILED
deriving DecidableEq, Repr

inductive TuningRule
  | ZIEGLER_NICHOLS_CLASSIC
  | ZIEGLER_NICHOLS_PESSEN
  | ZIEGLER_NICHOLS_SOME_OVERSHOOT
  | ZIEGLER_NICHOLS_NO_OVERSHOOT
  | TYREUS_LUYBEN
deriving DecidableEq, Repr

structure TuningCoefficients where
  kp_factor : ℚ
  ti_factor : ℚ
  td_factor : ℚ
deriving DecidableEq, Repr

def tuning_rules : TuningRule → TuningCoefficients
  | TuningRule.ZIEGLER_NICHOLS_CLASSIC => { kp_factor := 6/10, ti_factor := 2, td_factor := 125/1000 }
  | TuningRule.ZIEGLER_NICHOLS_PESSEN => { kp_factor := 7/10, ti_factor := 25/10, td_factor := 15/100 }
  | TuningRule.ZIEGLER_NICHOLS_SOME_OVERSHOOT => { kp_factor := 33/100, ti_factor := 2, td_factor := 33/100 }
  | TuningRule.ZIEGLER_NICHOLS_NO_OVERSHOOT => { kp_factor := 2/10, ti_factor := 2, td_factor := 33/100 }
  | TuningRule.TYREUS_LUYBEN => { kp_factor := 45/100, ti_factor := 22/10, td_factor := 15/100 }

/-- The IEEE-754 double value of `M_PI`. -/
def M_PI : ℚ := 884279719003555 / 281474976710656

structure AutotuneConfig where
  setpoint : ℚ
  output_step : ℚ
  noise_band : ℚ
  max_cycles : ℕ
  timeout_seconds : ℕ
  initial_output : ℚ
deriving DecidableEq, Repr

structure AutotuneResult where
  kp : ℚ
  ki : ℚ
  kd : ℚ
  ultimate_gain : ℚ
  ultimate_period : ℚ
  cycles_observed : ℕ
  final_state : AutotuneState
deriving DecidableEq, Repr

structure AutotuneContext where
  config : AutotuneConfig
  rule : TuningRule
  state : AutotuneState
  start_time_sec : ℕ
  relay_output_high : Bool
  peak_high : List ℚ
  peak_low : List ℚ
  peak_timestamps : List ℕ
  peak_count : ℕ
  peak_index : ℕ
  last_input : ℚ
  just_changed : Bool
  last_change_time_sec : ℕ
  is_peak_detected : Bool
  running_output : ℚ
  result : AutotuneResult
deriving DecidableEq, Repr

def zeroResult : AutotuneResult where
  kp := 0
  ki := 0
  kd := 0
  ultimate_gain := 0
  ultimate_period := 0
  cycles_observed := 0
  final_state := AutotuneState.IDLE

def pid_autotune_default_config (setpoint : ℚ) : AutotuneConfig where
  setpoint := setpoint
  output_step := 50
  noise_band := 5/10
  max_cycles := 10
  timeout_seconds := 600
  initial_output := 20

def pid_autotune_init (config : AutotuneConfig) (rule : TuningRule) : AutotuneContext where
  config := config
  rule := rule
  state := AutotuneState.IDLE
  start_time_sec := 0
  relay_output_high := false
  peak_high := List.replicate 10 0
  peak_low := List.replicate 10 0
  peak_timestamps := List.replicate 10 0
  peak_count := 0
  peak_index := 0
  last_input := 0
  just_changed := false
  last_change_time_sec := 0
  is_peak_detected := false
  running_output := 0
  result := zeroResult

def pid_autotune_start (ctx : AutotuneContext) (now : ℕ) : AutotuneContext × Bool :=
  if ctx.state ≠ AutotuneState.IDLE then (ctx, false)
  else
    ({ ctx with
        state := AutotuneState.RELAY_STEP_UP
        start_time_sec := now
        relay_output_high := true
        peak_count := 0
        peak_index := 0
        just_changed := false
        is_peak_detected := false
        running_output := ctx.config.initial_output },
     true)

/-- `calculate_amplitude`: average absolute difference of consecutive
entries of the first `count` slots. -/
def calculate_amplitude (peaks : List ℚ) (count : ℕ) : ℚ :=
  if count < 2 then 0
  else
    ((List.range (count - 1)).foldl
      (fun sum i => sum + |peaks.getD (i + 1) 0 - peaks.getD i 0|) 0)
      / ((count - 1 : ℕ) : ℚ)

/-- `calculate_period`: average of consecutive timestamp differences, where
both the per-step differences and the running sum wrap as `uint32_t`. -/
def calculate_period (timestamps : List ℕ) (count : ℕ) : ℚ :=
  if count < 2 then 0
  else
    (((List.range (count - 1)).foldl
        (fun sum i =>
          (sum + sub32 (timestamps.getD (i + 1) 0) (timestamps.getD i 0)) % 2 ^ 32) 0 : ℕ) : ℚ)
      / ((count - 1 : ℕ) : ℚ)

/-- Body of the `RELAY_STEP_UP` / `RELAY_STEP_DOWN` / `MEASURE_PERIOD` case
of `pid_autotune_update`. -/
def autotune_relay_step (ctx : AutotuneContext) (input : ℚ) (now : ℕ) :
    AutotuneContext × ℚ :=
  let setpoint := ctx.config.setpoint
  let noise_band := ctx.config.noise_band
  let should_switch : Bool :=
    if ctx.relay_output_high then decide (setpoint + noise_band < input)
    else decide (input < setpoint - noise_band)
  let ctx1 :=
    if should_switch then
      let ctxa := { ctx with relay_output_high := !ctx.relay_output_high, just_changed := true }
      let ctxb :=
        if ctxa.peak_count < 10 then
          let ctxp :=
            if ctxa.relay_output_high then
              { ctxa with peak_low := ctxa.peak_low.set ctxa.peak_count input }
            else
              { ctxa with peak_high := ctxa.peak_high.set ctxa.peak_count input }
          { ctxp with
            peak_timestamps := ctxp.peak_timestamps.set ctxp.peak_count now
            peak_count := ctxp.peak_count + 1 }
        else ctxa
      if ctx.config.max_cycles ≤ ctxb.peak_count then
        { ctxb with state := AutotuneState.CALCULATING }
      else ctxb
    else ctx
  let ctx2 :=
    { ctx1 with
      running_output :=
        if ctx1.relay_output_high then ctx1.config.initial_output + ctx1.config.output_step
        else ctx1.config.initial_output - ctx1.config.output_step }
  let ctx3 :=
    { ctx2 with
      running_output :=
        if (100 : ℚ) < ctx2.running_output then 100
        else if ctx2.running_output < (0 : ℚ) then 0
        else ctx2.running_output }
  let ctx4 := { ctx3 with last_input := input }
  (ctx4, ctx4.running_output)

/-- Body of the `CALCULATING` case of `pid_autotune_update`. -/
def autotune_calculating_step (ctx : AutotuneContext) : AutotuneContext × ℚ :=
  let amplitude_high := calculate_amplitude ctx.peak_high ctx.peak_count
  let amplitude_low := calculate_amplitude ctx.peak_low ctx.peak_count
  let amplitude := (amplitude_high + amplitude_low) / 2
  let period := calculate_period ctx.peak_timestamps ctx.peak_count
  if amplitude < 1/10 ∨ period < 1 then
    ({ ctx with state := AutotuneState.FAILED }, 0)
  else
    let relay_amplitude := ctx.config.output_step
    let ku := 4 * relay_amplitude / (M_PI * amplitude)
    let coeffs := tuning_rules ctx.rule
    let kp := ku * coeffs.kp_factor
    let ti := period / coeffs.ti_factor
    let td := period * coeffs.td_factor
    let ki := kp / ti
    let kd := kp * td
    ({ ctx with
        state := AutotuneState.COMPLETE
        result :=
          { kp := kp, ki := ki, kd := kd
            ultimate_gain := ku
            ultimate_period := period
            cycles_observed := ctx.peak_count
            final_state := AutotuneState.COMPLETE } },
     0)

def pid_autotune_update (ctx : AutotuneContext) (input : ℚ) (now : ℕ) :
    AutotuneContext × ℚ :=
  if ctx.config.timeout_seconds < sub32 now ctx.start_time_sec then
    ({ ctx with state := AutotuneState.FAILED }, 0)
  else
    match ctx.state with
    | AutotuneState.IDLE => (ctx, 0)
    | AutotuneState.COMPLETE => (ctx, 0)
    | AutotuneState.FAILED => (ctx, 0)
    | AutotuneState.RELAY_STEP_UP => autotune_relay_step ctx input now
    | AutotuneState.RELAY_STEP_DOWN => autotune_relay_step ctx input now
    | AutotuneState.MEASURE_PERIOD => autotune_relay_step ctx input now
    | AutotuneState.CALCULATING => autotune_calculating_step ctx

def pid_autotune_is_complete (ctx : AutotuneContext) : Bool :=
  ctx.state = AutotuneState.COMPLETE ∨ ctx.state = AutotuneState.FAILED

def pid_autotune_get_result (ctx : AutotuneContext) : Option AutotuneResult :=
  if ctx.state = AutotuneState.COMPLETE then some ctx.result else none

/-- A context that has completed auto-tuning with a stored result. -/
def ctxCompleted : AutotuneContext :=
  { pid_autotune_init (pid_autotune_default_config 140) TuningRule.TYREUS_LUYBEN with
    state := AutotuneState.COMPLETE
    result :=
      { kp := 2, ki := 1/10, kd := 1, ultimate_gain := 4, ultimate_period := 30
        cycles_observed := 10, final_state := AutotuneState.COMPLETE } }

/-- An oscillating context right after `pid_autotune_start`: relay high, no
peaks yet, default configuration around a 140 °C setpoint. -/
def ctxOsc : AutotuneContext where
  config := pid_autotune_default_config 140
  rule := TuningRule.TYREUS_LUYBEN
  state := AutotuneState.RELAY_STEP_UP
  start_time_sec := 0
  relay_output_high := true
  peak_high := List.replicate 10 0
  peak_low := List.replicate 10 0
  peak_timestamps := List.replicate 10 0
  peak_count := 0
  peak_index := 0
  last_input := 0
  just_changed := false
  last_change_time_sec := 0
  is_peak_detected := false
  running_output := 20
  result := zeroResult

/-- The spec's amplitude: average absolute difference of consecutive entries
among the first `count` slots. -/
def avg_abs_step (xs : List ℚ) (count : ℕ) : ℚ :=
  ((List.range (count - 1)).map (fun i => |xs.getD (i + 1) 0 - xs.getD i 0|)).sum
    / ((count - 1 : ℕ) : ℚ)

/-- The spec's period: average difference of consecutive timestamps among the
first `count` slots. -/
def avg_time_step (ts : List ℕ) (count : ℕ) : ℚ :=
  ((((List.range (count - 1)).map
      (fun i => sub32 (ts.getD (i + 1) 0) (ts.getD i 0))).sum : ℕ) : ℚ)
    / ((count - 1 : ℕ) : ℚ)

/-- A context that has collected four alternating peaks of a clean 2 °C,
10 s oscillation and moved to `CALCULATING`. -/
def ctxCalc : AutotuneContext where
  config := pid_autotune_default_config 140
  rule := TuningRule.TYREUS_LUYBEN
  state := AutotuneState.CALCULATING
  start_time_sec := 0
  relay_output_high := false
  peak_high := [150, 152, 150, 152, 0, 0, 0, 0, 0, 0]
  peak_low := [130, 128, 130, 128, 0, 0, 0, 0, 0, 0]
  peak_timestamps := [0, 10, 20, 30, 0, 0, 0, 0, 0, 0]
  peak_count := 4
  peak_index := 0
  last_input := 0
  just_changed := false
  last_change_time_sec := 0
  is_peak_detected := false
  running_output := 0
  result := zeroResult

theorem sub32_of_le (a b : ℕ) (hb : b ≤ a) (ha : a < 2 ^ 32) : sub32 a b = a - b := by
  unfold sub32
  rw [Nat.mod_eq_of_lt ha, Nat.mod_eq_of_lt (lt_of_le_of_lt hb ha)]
  omega

/-- C1: `check_system_safety` returns false exactly when the temperature is
above `MAX_TEMPERATURE`, the heap is below `HEAP_MINIMUM`, the last valid
sensor reading is older than `SENSOR_TIMEOUT_SEC`, or an emergency shutdown is
already latched; in particular, with a fresh reading, ample heap and no
shutdown it returns false at 220.1 °C and true at 219.9 °C. -/
theorem C1_check_system_safety_iff :
    (∀ (st : SystemState) (env : Env),
      check_system_safety st env = false ↔
        (MAX_TEMPERATURE < st.current_temperature ∨
         env.free_heap < HEAP_MINIMUM ∨
         SENSOR_TIMEOUT_SEC < sub32 env.now st.last_temp_reading ∨
         st.emergency_shutdown = true)) ∧
    check_system_safety (stateAtTemp (MAX_TEMPERATURE + 1/10)) freshEnv = false ∧
    check_system_safety (stateAtTemp (MAX_TEMPERATURE - 1/10)) freshEnv = true := by
  refine ⟨fun st env => ?_, ?_, ?_⟩
  · unfold check_system_safety
    split_ifs with h1 h2 h3 h4 <;> simp_all
  · unfold check_system_safety stateAtTemp freshEnv
    norm_num [MAX_TEMPERATURE, HEAP_MINIMUM, SENSOR_TIMEOUT_SEC, sub32]
  · unfold check_system_safety stateAtTemp freshEnv
    norm_num [MAX_TEMPERATURE, HEAP_MINIMUM, SENSOR_TIMEOUT_SEC, sub32]

/-- C2: `emergency_shutdown_system` is idempotent — a state already in
emergency shutdown is returned unchanged (in particular `emergency_stops` is
not incremented again), while a state not yet shut down gets
`emergency_shutdown = true`, `system_healthy = false`, heating power 0,
`pressing_active` and `pause_mode` cleared, the LEDs off, the cycle
timestamps zeroed, and `emergency_stops` incremented once; calling it twice
yields the same end state as calling it once. -/
theorem C2_emergency_shutdown_idempotent (st : SystemState) :
    emergency_shutdown_system (emergency_shutdown_system st) =
      emergency_shutdown_system st ∧
    emergency_shutdown_system { st with emergency_shutdown := true } =
      { st with emergency_shutdown := true } ∧
    ((emergency_shutdown_system { st with emergency_shutdown := false }).emergency_shutdown
        = true ∧
     (emergency_shutdown_system { st with emergency_shutdown := false }).system_healthy
        = false ∧
     (emergency_shutdown_system { st with emergency_shutdown := false }).heating_duty
        = heating_set_power 0 ∧
     (emergency_shutdown_system { st with emergency_shutdown := false }).pressing_active
        = false ∧
     (emergency_shutdown_system { st with emergency_shutdown := false }).pause_mode
        = false ∧
     (emergency_shutdown_system { st with emergency_shutdown := false }).led_green
        = false ∧
     (emergency_shutdown_system { st with emergency_shutdown := false }).led_blue
        = false ∧
     (emergency_shutdown_system { st with emergency_shutdown := false }).cycle_start_time
        = 0 ∧
     (emergency_shutdown_system { st with emergency_shutdown := false }).stage_start_time
        = 0 ∧
     (emergency_shutdown_system { st with emergency_shutdown := false }).run_start_time
        = 0 ∧
     (emergency_shutdown_system { st with emergency_shutdown := false }).statistics.emergency_stops
        = (st.statistics.emergency_stops + 1) % 2 ^ 16) := by
  unfold emergency_shutdown_system
  by_cases h : st.emergency_shutdown <;> simp [h]

/-- C5: `reset_error_state` changes nothing unless the system is in emergency
shutdown and every recovery condition holds (temperature in
`[TEMP_CYCLE_START_MIN, target + TEMP_RECOVERY_OFFSET)`, heap above
`2 * HEAP_MINIMUM`, sensor operational, a reading within the validation
timeout, and no active cycle); in particular with `pressing_active` set the
`emergency_shutdown` flag is left exactly as it was. -/
theorem C5_reset_error_state_fail_closed (st : SystemState) (env : Env) :
    (¬(st.emergency_shutdown = true ∧
        (TEMP_CYCLE_START_MIN ≤ st.current_temperature ∧
         st.current_temperature < st.settings.target_temp + TEMP_RECOVERY_OFFSET) ∧
        HEAP_MINIMUM * 2 < env.free_heap ∧
        env.sensor_operational = true ∧
        sub32 env.now st.last_temp_reading < SENSOR_VALIDATION_TIMEOUT_SEC ∧
        st.pressing_active = false) →
      reset_error_state st env = st) ∧
    (st.pressing_active = true →
      (reset_error_state st env).emergency_shutdown = st.emergency_shutdown) := by
  constructor
  · intro hfail
    unfold reset_error_state
    by_cases hes : st.emergency_shutdown
    · simp only [hes, Bool.not_true, Bool.false_eq_true, if_false]
      rw [if_neg]
      intro hc
      exact hfail ⟨hes, hc.1, hc.2.1, hc.2.2.1, hc.2.2.2.1, hc.2.2.2.2⟩
    · simp [hes]
  · intro hpress
    unfold reset_error_state
    by_cases hes : st.emergency_shutdown <;> simp [hes, hpress]

/-- Witness for C5: a state in emergency shutdown with an active pressing
cycle is left unchanged, and the shutdown flag stays latched. -/
theorem C5_reset_error_state_witness :
    reset_error_state
        { stateAtTemp 140 with emergency_shutdown := true, pressing_active := true }
        freshEnv
      = { stateAtTemp 140 with emergency_shutdown := true, pressing_active := true } ∧
    (reset_error_state
        { stateAtTemp 140 with emergency_shutdown := true, pressing_active := true }
        freshEnv).emergency_shutdown = true := by
  have h := C5_reset_error_state_fail_closed
    { stateAtTemp 140 with emergency_shutdown := true, pressing_active := true }
    freshEnv
  refine ⟨h.1 (fun hc => ?_), by rw [h.2 rfl]⟩
  exact absurd hc.2.2.2.2.2 (by simp [stateAtTemp])

/-- C6: during an active cycle, `update_pressing_cycle` escalates to
`emergency_shutdown_system` when the elapsed cycle time exceeds
`MAX_CYCLE_TIME`, and likewise when the temperature exceeds
`target_temp + TEMP_PRESSING_MAX_OFFSET`; the shutdown fires exactly once —
the first such update increments `emergency_stops` once and every later
update of the shut-down state is an identity. -/
theorem C6_update_cycle_timeout_shutdown (st : SystemState) (env : Env)
    (hact : st.pressing_active = true) (hes : st.emergency_shutdown = false) :
    (MAX_CYCLE_TIME < sub32 env.now st.cycle_start_time →
      update_pressing_cycle st env = emergency_shutdown_system st ∧
      (update_pressing_cycle st env).emergency_shutdown = true ∧
      (update_pressing_cycle st env).statistics.emergency_stops
        = (st.statistics.emergency_stops + 1) % 2 ^ 16 ∧
      ∀ env2 : Env,
        update_pressing_cycle (update_pressing_cycle st env) env2
          = update_pressing_cycle st env) ∧
    (sub32 env.now st.cycle_start_time ≤ MAX_CYCLE_TIME →
     st.settings.target_temp + TEMP_PRESSING_MAX_OFFSET < st.current_temperature →
      update_pressing_cycle st env = emergency_shutdown_system st ∧
      (update_pressing_cycle st env).emergency_shutdown = true) := by
  have hshut : (emergency_shutdown_system st).emergency_shutdown = true := by
    unfold emergency_shutdown_system
    simp [hes]
  have hstats : (emergency_shutdown_system st).statistics.emergency_stops
      = (st.statistics.emergency_stops + 1) % 2 ^ 16 := by
    unfold emergency_shutdown_system
    simp [hes]
  constructor
  · intro htime
    have hupd : update_pressing_cycle st env = emergency_shutdown_system st := by
      unfold update_pressing_cycle
      simp [hact, hes, htime]
    refine ⟨hupd, hupd ▸ hshut, hupd ▸ hstats, fun env2 => ?_⟩
    rw [hupd]
    unfold update_pressing_cycle
    simp [hshut]
  · intro htime htemp
    have hupd : update_pressing_cycle st env = emergency_shutdown_system st := by
      unfold update_pressing_cycle
      simp [hact, hes, htemp, Nat.not_lt.mpr htime]
    exact ⟨hupd, hupd ▸ hshut⟩

/-- Witness for C6: a cycle started at time 0 and updated at time 301 s is
shut down, `emergency_stops` goes from 0 to 1, and a further update at 302 s
changes nothing. -/
theorem C6_update_cycle_timeout_witness :
    update_pressing_cycle
        { stateAtTemp 140 with pressing_active := true, current_stage := CycleStatus.STAGE1 }
        { now := 301, free_heap := 100000, sensor_operational := true }
      = emergency_shutdown_system
        { stateAtTemp 140 with pressing_active := true, current_stage := CycleStatus.STAGE1 } ∧
    (update_pressing_cycle
        { stateAtTemp 140 with pressing_active := true, current_stage := CycleStatus.STAGE1 }
        { now := 301, free_heap := 100000, sensor_operational := true }).statistics.emergency_stops
      = 1 ∧
    update_pressing_cycle
      (update_pressing_cycle
        { stateAtTemp 140 with pressing_active := true, current_stage := CycleStatus.STAGE1 }
        { now := 301, free_heap := 100000, sensor_operational := true })
      { now := 302, free_heap := 100000, sensor_operational := true }
      = update_pressing_cycle
        { stateAtTemp 140 with pressing_active := true, current_stage := CycleStatus.STAGE1 }
        { now := 301, free_heap := 100000, sensor_operational := true } := by
  have h := C6_update_cycle_timeout_shutdown
    { stateAtTemp 140 with pressing_active := true, current_stage := CycleStatus.STAGE1 }
    { now := 301, free_heap := 100000, sensor_operational := true }
    rfl rfl
  have htime : MAX_CYCLE_TIME <
      sub32 (301 : ℕ) (stateAtTemp 140).cycle_start_time := by
    simp [MAX_CYCLE_TIME, sub32, stateAtTemp]
  have h1 := h.1 htime
  refine ⟨h1.1, ?_, h1.2.2.2 _⟩
  rw [h1.2.2.1]
  simp [stateAtTemp]

/-- C7: `start_pressing_cycle` is gated on no active cycle, no emergency
shutdown and `validate_cycle_safety`; when any of the three gates fails the
whole state is returned unchanged, so a second call while a cycle is active
is a no-op and `current_cycle.start_time` is untouched. -/
theorem C7_start_cycle_gate (st : SystemState) (env : Env) :
    ((st.pressing_active = true ∨ st.emergency_shutdown = true ∨
        validate_cycle_safety st env = false) →
      start_pressing_cycle st env = st) ∧
    (st.pressing_active = true →
      start_pressing_cycle st env = st ∧
      (start_pressing_cycle st env).current_cycle.start_time
        = st.current_cycle.start_time) := by
  have hgate : (st.pressing_active = true ∨ st.emergency_shutdown = true ∨
      validate_cycle_safety st env = false) →
      start_pressing_cycle st env = st := by
    intro hfail
    unfold start_pressing_cycle
    rcases hfail with h | h | h <;> simp [h]
  refine ⟨hgate, fun hact => ?_⟩
  have h := hgate (Or.inl hact)
  exact ⟨h, by rw [h]⟩

/-- Witness for C7: starting a cycle in a state whose cycle is already
active changes nothing, and in particular keeps `current_cycle.start_time`. -/
theorem C7_start_cycle_gate_witness :
    start_pressing_cycle
        { stateAtTemp 140 with pressing_active := true } freshEnv
      = { stateAtTemp 140 with pressing_active := true } ∧
    (start_pressing_cycle
        { stateAtTemp 140 with pressing_active := true } freshEnv).current_cycle.start_time
      = (stateAtTemp 140).current_cycle.start_time := by
  have h := (C7_start_cycle_gate
    { stateAtTemp 140 with pressing_active := true } freshEnv).2 rfl
  exact ⟨h.1, h.2⟩

/-- C9 counterexample: `validate_settings` accepts a settings record whose
stage-1 duration is 400 s, outside the claimed 1–300 s window — the code
checks the durations only for being non-zero. -/
theorem C9_validate_settings_counterexample :
    validate_settings settingsStage400 = true ∧
    300 < settingsStage400.stage1_default := by
  constructor
  · unfold validate_settings settingsStage400
    norm_num
  · norm_num [settingsStage400]

/-- C9 (amended): `validate_settings` accepts a settings record if and only
if `target_temp` is within 0–250 °C, the PID gains are each nonnegative and
the stage durations are each at least 1 s (the code imposes no upper bound
on the durations); `save_persistent_data` persists only settings that pass
this validation. -/
theorem C9_validate_settings_spec :
    (∀ s : Settings,
      validate_settings s = true ↔
        (0 ≤ s.target_temp ∧ s.target_temp ≤ 250 ∧
         0 ≤ s.pid_kp ∧ 0 ≤ s.pid_ki ∧ 0 ≤ s.pid_kd ∧
         1 ≤ s.stage1_default ∧ 1 ≤ s.stage2_default)) ∧
    (∀ st : SystemState,
      validate_settings st.settings = false → (save_persistent_data st).1 = none) ∧
    (∀ (st : SystemState) (s : Settings),
      (save_persistent_data st).1 = some s → validate_settings s = true) := by
  refine ⟨fun s => ?_, fun st hv => ?_, fun st s hs => ?_⟩
  · unfold validate_settings
    split_ifs with h1 h2 h3
    · simp only [Bool.false_eq_true, false_iff]
      rintro ⟨ha, hb, -, -, -, -, -⟩
      rcases h1 with h | h
      · exact absurd ha (not_le.mpr h)
      · exact absurd hb (not_le.mpr h)
    · simp only [Bool.false_eq_true, false_iff]
      rintro ⟨-, -, hkp, hki, hkd, -, -⟩
      rcases h2 with h | h | h
      · exact absurd hkp (not_le.mpr h)
      · exact absurd hki (not_le.mpr h)
      · exact absurd hkd (not_le.mpr h)
    · simp only [Bool.false_eq_true, false_iff]
      rintro ⟨-, -, -, -, -, hd1, hd2⟩
      rcases h3 with h | h <;> omega
    · simp only [true_iff]
      push_neg at h1 h2 h3
      exact ⟨h1.1, h1.2, h2.1, h2.2.1, h2.2.2, by omega, by omega⟩
  · unfold save_persistent_data
    simp [hv]
  · unfold save_persistent_data at hs
    by_cases hv : validate_settings st.settings = true
    · simp only [hv, if_true] at hs
      exact (Option.some_inj.mp hs) ▸ hv
    · simp [hv] at hs

/-- Witness for C9: a settings record with a zero stage-1 duration fails
validation and `save_persistent_data` refuses to persist it, while a fully
valid record satisfies the acceptance characterisation. -/
theorem C9_validate_settings_witness :
    (save_persistent_data
        { stateAtTemp 140 with
          settings := { settingsStage400 with stage1_default := 0 } }).1 = none ∧
    validate_settings (stateAtTemp 140).settings = true := by
  constructor
  · exact C9_validate_settings_spec.2.1 _ (by norm_num [validate_settings, settingsStage400])
  · exact (C9_validate_settings_spec.1 _).mpr (by norm_num [stateAtTemp])

theorem CLAMP_mem (value mn mx : ℚ) (h : mn ≤ mx) :
    mn ≤ CLAMP value mn mx ∧ CLAMP value mn mx ≤ mx := by
  unfold CLAMP
  split_ifs with h1 h2 <;> constructor <;> linarith

theorem pid_controller_update_config (pid : PidController) (measurement : ℚ)
    (now_us : ℕ) : (pid_controller_update pid measurement now_us).1.config = pid.config := by
  unfold pid_controller_update
  dsimp only
  split_ifs <;> rfl

theorem pid_controller_update_snd (pid : PidController) (measurement : ℚ)
    (now_us : ℕ) :
    (pid_controller_update pid measurement now_us).2
      = (pid_controller_update pid measurement now_us).1.last_output := by
  unfold pid_controller_update
  dsimp only
  split_ifs <;> rfl

theorem pid_reachable_output_mem (pid : PidController) (h : PidReachable pid) :
    pid.config.output_min ≤ 0 → 0 ≤ pid.config.output_max →
    pid.config.output_min ≤ pid.last_output ∧
    pid.last_output ≤ pid.config.output_max := by
  induction h with
  | init config now_us =>
    intro hmin hmax
    exact ⟨hmin, hmax⟩
  | update pid measurement now_us hre ih =>
    intro hmin hmax
    rw [pid_controller_update_config] at hmin hmax
    have ihs := ih hmin hmax
    unfold pid_controller_update
    dsimp only
    split_ifs with hdt
    · exact ihs
    all_goals exact CLAMP_mem _ _ _ (le_trans hmin hmax)
  | set_setpoint pid new_setpoint reset_integral hre ih =>
    intro hmin hmax
    exact ih hmin hmax
  | reset pid now_us hre ih =>
    intro hmin hmax
    exact ⟨hmin, hmax⟩

/-- C8 counterexample: with output limits `[5, 100]`, the state reached by
`pid_controller_init` alone has `last_output = 0`, strictly below
`output_min`, and an immediate second update (within the 100 ms minimum
interval) returns that out-of-range cached value. -/
theorem C8_pid_output_counterexample :
    PidReachable (pid_controller_init pidConfigMin5 0) ∧
    (pid_controller_init pidConfigMin5 0).last_output
      < (pid_controller_init pidConfigMin5 0).config.output_min ∧
    (pid_controller_update (pid_controller_init pidConfigMin5 0) 140 0).2
      < (pid_controller_init pidConfigMin5 0).config.output_min := by
  refine ⟨PidReachable.init pidConfigMin5 0, by norm_num [pid_controller_init, pidConfigMin5], ?_⟩
  unfold pid_controller_update
  rw [if_pos]
  · norm_num [pid_controller_init, pidConfigMin5]
  · norm_num [pid_controller_init, sub64, PID_MIN_UPDATE_INTERVAL_MS]

/-- C8 (amended): for every controller state reachable by `init` followed by
any sequence of `update` / `set_setpoint` / `reset` calls, provided the
configured output window contains 0 (as it does for every configuration this
firmware builds, always `[0, 100]`), the invariant
`output_min ≤ last_output ≤ output_max` holds, and every value returned by
`pid_controller_update` — the clamped PID sum or the cached last output —
lies within `[output_min, output_max]`. -/
theorem C8_pid_output_clamped (pid : PidController) (h : PidReachable pid)
    (hmin : pid.config.output_min ≤ 0) (hmax : 0 ≤ pid.config.output_max) :
    (pid.config.output_min ≤ pid.last_output ∧
     pid.last_output ≤ pid.config.output_max) ∧
    ∀ (measurement : ℚ) (now_us : ℕ),
      pid.config.output_min ≤ (pid_controller_update pid measurement now_us).2 ∧
      (pid_controller_update pid measurement now_us).2 ≤ pid.config.output_max := by
  refine ⟨pid_reachable_output_mem pid h hmin hmax, fun measurement now_us => ?_⟩
  have hr2 : PidReachable (pid_controller_update pid measurement now_us).1 :=
    PidReachable.update pid measurement now_us h
  have hcfg := pid_controller_update_config pid measurement now_us
  have h2 := pid_reachable_output_mem _ hr2 (hcfg ▸ hmin) (hcfg ▸ hmax)
  rw [hcfg] at h2
  rw [pid_controller_update_snd]
  exact h2

/-- Witness for C8: with the firmware's `[0, 100]` output window, the state
after an `init` and one `update` keeps `last_output` within the window, and
a further update returns a value within the window. -/
theorem C8_pid_output_clamped_witness :
    (0 : ℚ) ≤ (pid_controller_update (pid_controller_init pidConfigFirmware 0)
        130 1000000).2 ∧
    (pid_controller_update (pid_controller_init pidConfigFirmware 0)
        130 1000000).2 ≤ 100 := by
  have h := C8_pid_output_clamped (pid_controller_init pidConfigFirmware 0)
    (PidReachable.init pidConfigFirmware 0)
    (by norm_num [pid_controller_init, pidConfigFirmware])
    (by norm_num [pid_controller_init, pidConfigFirmware])
  have h2 := h.2 130 1000000
  simpa [pid_controller_init, pidConfigFirmware] using h2

/-- C10: the timeout check runs before the state dispatch, so in every state
— `COMPLETE`, `CALCULATING` and `IDLE` included — a call made more than
`timeout_seconds` after `start_time_sec` forces the state to `FAILED` and
returns 0, after which `pid_autotune_get_result` yields nothing even if a
valid result had been stored. -/
theorem C10_autotune_timeout_any_state (ctx : AutotuneContext) (input : ℚ) (now : ℕ)
    (h : ctx.config.timeout_seconds < sub32 now ctx.start_time_sec) :
    (pid_autotune_update ctx input now).1.state = AutotuneState.FAILED ∧
    (pid_autotune_update ctx input now).2 = 0 ∧
    pid_autotune_get_result (pid_autotune_update ctx input now).1 = none := by
  unfold pid_autotune_update
  rw [if_pos h]
  refine ⟨rfl, rfl, ?_⟩
  unfold pid_autotune_get_result
  simp

/-- Witness for C10: a completed context whose result was retrievable is
driven to `FAILED` by an update 601 s after start (timeout 600 s), and its
result becomes unretrievable. -/
theorem C10_autotune_timeout_witness :
    pid_autotune_get_result ctxCompleted ≠ none ∧
    (pid_autotune_update ctxCompleted 140 601).1.state = AutotuneState.FAILED ∧
    pid_autotune_get_result (pid_autotune_update ctxCompleted 140 601).1 = none := by
  have ht : ctxCompleted.config.timeout_seconds < sub32 601 ctxCompleted.start_time_sec := by
    show (600 : ℕ) < sub32 601 0
    rw [sub32_of_le 601 0 (by norm_num) (by norm_num)]
    norm_num
  have h := C10_autotune_timeout_any_state ctxCompleted 140 601 ht
  refine ⟨?_, h.1, h.2.2⟩
  unfold pid_autotune_get_result ctxCompleted
  simp

theorem pid_autotune_update_relay_branch (ctx : AutotuneContext) (input : ℚ) (now : ℕ)
    (hstate : ctx.state = AutotuneState.RELAY_STEP_UP ∨
      ctx.state = AutotuneState.RELAY_STEP_DOWN ∨
      ctx.state = AutotuneState.MEASURE_PERIOD)
    (htmo : sub32 now ctx.start_time_sec ≤ ctx.config.timeout_seconds) :
    pid_autotune_update ctx input now = autotune_relay_step ctx input now := by
  unfold pid_autotune_update
  rw [if_neg (Nat.not_lt.mpr htmo)]
  rcases hstate with h | h | h <;> rw [h]

/-- How each observable field of the context changes across one relay step. -/
theorem autotune_relay_step_char (ctx : AutotuneContext) (input : ℚ) (now : ℕ)
    (flip : Bool)
    (hflip : flip =
      (if ctx.relay_output_high then
        decide (ctx.config.setpoint + ctx.config.noise_band < input)
      else decide (input < ctx.config.setpoint - ctx.config.noise_band))) :
    (autotune_relay_step ctx input now).1.relay_output_high
      = (if flip = true then !ctx.relay_output_high else ctx.relay_output_high) ∧
    (autotune_relay_step ctx input now).1.peak_count
      = (if flip = true ∧ ctx.peak_count < 10 then ctx.peak_count + 1 else ctx.peak_count) ∧
    (autotune_relay_step ctx input now).1.peak_high
      = (if flip = true ∧ ctx.peak_count < 10 ∧ ctx.relay_output_high = true then
          ctx.peak_high.set ctx.peak_count input
        else ctx.peak_high) ∧
    (autotune_relay_step ctx input now).1.peak_low
      = (if flip = true ∧ ctx.peak_count < 10 ∧ ctx.relay_output_high = false then
          ctx.peak_low.set ctx.peak_count input
        else ctx.peak_low) ∧
    (autotune_relay_step ctx input now).1.peak_timestamps
      = (if flip = true ∧ ctx.peak_count < 10 then
          ctx.peak_timestamps.set ctx.peak_count now
        else ctx.peak_timestamps) ∧
    (autotune_relay_step ctx input now).1.state
      = (if flip = true ∧ ctx.config.max_cycles ≤
            (if flip = true ∧ ctx.peak_count < 10 then ctx.peak_count + 1 else ctx.peak_count)
        then AutotuneState.CALCULATING
        else ctx.state) := by
  subst hflip
  unfold autotune_relay_step
  dsimp only
  by_cases hrel : ctx.relay_output_high <;>
  by_cases hin : ctx.config.setpoint + ctx.config.noise_band < input <;>
  by_cases hin2 : input < ctx.config.setpoint - ctx.config.noise_band <;>
  by_cases hpk : ctx.peak_count < 10 <;>
  simp [hrel, hin, hin2, hpk, apply_ite] <;>
  split_ifs <;> intro h2 <;> omega

/-- C4: in the oscillating states, a high relay flips low exactly when the
input exceeds `setpoint + noise_band` and a low relay flips high exactly when
the input falls below `setpoint - noise_band`; a flip to low records the
input in `peak_high` and a flip to high records it in `peak_low`, each with a
timestamp, only while fewer than 10 peaks are stored; and the state moves to
`CALCULATING` exactly when a flip leaves `peak_count ≥ max_cycles`. -/
theorem C4_relay_feedback (ctx : AutotuneContext) (input : ℚ) (now : ℕ)
    (hstate : ctx.state = AutotuneState.RELAY_STEP_UP ∨
      ctx.state = AutotuneState.RELAY_STEP_DOWN ∨
      ctx.state = AutotuneState.MEASURE_PERIOD)
    (htmo : sub32 now ctx.start_time_sec ≤ ctx.config.timeout_seconds) :
    (ctx.relay_output_high = true →
      ((pid_autotune_update ctx input now).1.relay_output_high = false ↔
        ctx.config.setpoint + ctx.config.noise_band < input)) ∧
    (ctx.relay_output_high = false →
      ((pid_autotune_update ctx input now).1.relay_output_high = true ↔
        input < ctx.config.setpoint - ctx.config.noise_band)) ∧
    (ctx.relay_output_high = true → ctx.config.setpoint + ctx.config.noise_band < input →
      ctx.peak_count < 10 →
      (pid_autotune_update ctx input now).1.peak_high
          = ctx.peak_high.set ctx.peak_count input ∧
      (pid_autotune_update ctx input now).1.peak_low = ctx.peak_low ∧
      (pid_autotune_update ctx input now).1.peak_timestamps
          = ctx.peak_timestamps.set ctx.peak_count now ∧
      (pid_autotune_update ctx input now).1.peak_count = ctx.peak_count + 1) ∧
    (ctx.relay_output_high = false → input < ctx.config.setpoint - ctx.config.noise_band →
      ctx.peak_count < 10 →
      (pid_autotune_update ctx input now).1.peak_low
          = ctx.peak_low.set ctx.peak_count input ∧
      (pid_autotune_update ctx input now).1.peak_high = ctx.peak_high ∧
      (pid_autotune_update ctx input now).1.peak_timestamps
          = ctx.peak_timestamps.set ctx.peak_count now ∧
      (pid_autotune_update ctx input now).1.peak_count = ctx.peak_count + 1) ∧
    (10 ≤ ctx.peak_count →
      (pid_autotune_update ctx input now).1.peak_count = ctx.peak_count ∧
      (pid_autotune_update ctx input now).1.peak_high = ctx.peak_high ∧
      (pid_autotune_update ctx input now).1.peak_low = ctx.peak_low ∧
      (pid_autotune_update ctx input now).1.peak_timestamps = ctx.peak_timestamps) ∧
    (ctx.peak_count ≤ 10 → (pid_autotune_update ctx input now).1.peak_count ≤ 10) ∧
    ((pid_autotune_update ctx input now).1.state = AutotuneState.CALCULATING ↔
      ((pid_autotune_update ctx input now).1.relay_output_high ≠ ctx.relay_output_high ∧
       ctx.config.max_cycles ≤ (pid_autotune_update ctx input now).1.peak_count)) := by
  have hne : ctx.state ≠ AutotuneState.CALCULATING := by
    rcases hstate with h | h | h <;> simp [h]
  rw [pid_autotune_update_relay_branch ctx input now hstate htmo]
  obtain ⟨h1, h2, h3, h4, h5, h6⟩ := autotune_relay_step_char ctx input now _ rfl
  refine ⟨?_, ?_, ?_, ?_, ?_, ?_, ?_⟩
  · intro hrel
    rw [h1]
    by_cases hin : ctx.config.setpoint + ctx.config.noise_band < input <;>
      simp [hrel, hin]
  · intro hrel
    rw [h1]
    by_cases hin : input < ctx.config.setpoint - ctx.config.noise_band <;>
      simp [hrel, hin]
  · intro hrel hin hpk
    rw [h3, h4, h5, h2]
    simp [hrel, hin, hpk]
  · intro hrel hin hpk
    rw [h4, h3, h5, h2]
    simp [hrel, hin, hpk]
  · intro h10
    have hpk : ¬ctx.peak_count < 10 := by omega
    rw [h2, h3, h4, h5]
    simp [hpk]
  · intro hle
    rw [h2]
    split_ifs <;> omega
  · rw [h6, h1, h2]
    by_cases hF : (if ctx.relay_output_high then
        decide (ctx.config.setpoint + ctx.config.noise_band < input)
      else decide (input < ctx.config.setpoint - ctx.config.noise_band)) = true
    · by_cases hpk : ctx.peak_count < 10
      · by_cases hM : ctx.config.max_cycles ≤ ctx.peak_count + 1 <;>
          simp [hF, hpk, hM, hne]
      · by_cases hM : ctx.config.max_cycles ≤ ctx.peak_count <;>
          simp [hF, hpk, hM, hne]
    · rw [Bool.not_eq_true] at hF
      simp [hF, hne]

/-- Witness for C4: with the relay high and an input of 141 °C against a
140 ± 0.5 °C band, the update at 10 s flips the relay low, records the input
as a high peak with its timestamp, and bumps `peak_count`. -/
theorem C4_relay_feedback_witness :
    (pid_autotune_update ctxOsc 141 10).1.relay_output_high = false ∧
    (pid_autotune_update ctxOsc 141 10).1.peak_high
      = ctxOsc.peak_high.set ctxOsc.peak_count 141 ∧
    (pid_autotune_update ctxOsc 141 10).1.peak_timestamps
      = ctxOsc.peak_timestamps.set ctxOsc.peak_count 10 ∧
    (pid_autotune_update ctxOsc 141 10).1.peak_count = ctxOsc.peak_count + 1 := by
  have hin : ctxOsc.config.setpoint + ctxOsc.config.noise_band < 141 := by
    norm_num [ctxOsc, pid_autotune_default_config]
  have h := C4_relay_feedback ctxOsc 141 10 (Or.inl rfl) (by decide)
  have hflip := (h.1 rfl).mpr hin
  have hrec := h.2.2.1 rfl hin (by decide)
  exact ⟨hflip, hrec.1, hrec.2.2.1, hrec.2.2.2⟩

theorem foldl_add_eq_sum (f : ℕ → ℚ) (l : List ℕ) (a : ℚ) :
    l.foldl (fun sum i => sum + f i) a = a + (l.map f).sum := by
  induction l generalizing a with
  | nil => simp
  | cons x xs ih => simp [ih, add_assoc]

theorem foldl_add_mod_eq_sum (f : ℕ → ℕ) (l : List ℕ) (a : ℕ)
    (h : a + (l.map f).sum < 2 ^ 32) :
    l.foldl (fun sum i => (sum + f i) % 2 ^ 32) a = a + (l.map f).sum := by
  induction l generalizing a with
  | nil => simp
  | cons x xs ih =>
    simp only [List.foldl_cons, List.map_cons, List.sum_cons]
    simp only [List.map_cons, List.sum_cons] at h
    rw [Nat.mod_eq_of_lt (by omega), ih (a + f x) (by omega)]
    omega

theorem calculate_amplitude_eq (peaks : List ℚ) (count : ℕ) :
    calculate_amplitude peaks count = avg_abs_step peaks count := by
  unfold calculate_amplitude avg_abs_step
  split_ifs with h
  · interval_cases count <;> simp
  · rw [foldl_add_eq_sum]
    simp

theorem calculate_period_eq (ts : List ℕ) (count : ℕ)
    (hsum : ((List.range (count - 1)).map
      (fun i => sub32 (ts.getD (i + 1) 0) (ts.getD i 0))).sum < 2 ^ 32) :
    calculate_period ts count = avg_time_step ts count := by
  unfold calculate_period avg_time_step
  split_ifs with h
  · interval_cases count <;> simp
  · rw [foldl_add_mod_eq_sum _ _ 0 (by simpa using hsum)]
    simp

theorem pid_autotune_update_calculating_branch (ctx : AutotuneContext) (input : ℚ)
    (now : ℕ) (hstate : ctx.state = AutotuneState.CALCULATING)
    (htmo : sub32 now ctx.start_time_sec ≤ ctx.config.timeout_seconds) :
    pid_autotune_update ctx input now = autotune_calculating_step ctx := by
  unfold pid_autotune_update
  rw [if_neg (Nat.not_lt.mpr htmo), hstate]

/-- C3: in the `CALCULATING` state (within the timeout), the update takes the
amplitude as the mean of the average absolute consecutive deltas of the
`peak_high` and `peak_low` slots and the period as the average consecutive
timestamp delta; if amplitude < 0.1 or period < 1 the tuning fails, and
otherwise `Ku = 4·output_step/(π·amplitude)`, `kp = Ku·kp_factor`,
`ki = kp/(Tu/ti_factor)` and `kd = kp·(Tu·td_factor)` are stored in the
result and the state becomes `COMPLETE`. -/
theorem C3_autotune_calculating (ctx : AutotuneContext) (input : ℚ) (now : ℕ)
    (hstate : ctx.state = AutotuneState.CALCULATING)
    (htmo : sub32 now ctx.start_time_sec ≤ ctx.config.timeout_seconds)
    (hsum : ((List.range (ctx.peak_count - 1)).map
      (fun i => sub32 (ctx.peak_timestamps.getD (i + 1) 0)
        (ctx.peak_timestamps.getD i 0))).sum < 2 ^ 32) :
    (((avg_abs_step ctx.peak_high ctx.peak_count
          + avg_abs_step ctx.peak_low ctx.peak_count) / 2 < 1/10 ∨
        avg_time_step ctx.peak_timestamps ctx.peak_count < 1) →
      (pid_autotune_update ctx input now).1.state = AutotuneState.FAILED ∧
      (pid_autotune_update ctx input now).2 = 0) ∧
    (¬((avg_abs_step ctx.peak_high ctx.peak_count
          + avg_abs_step ctx.peak_low ctx.peak_count) / 2 < 1/10 ∨
        avg_time_step ctx.peak_timestamps ctx.peak_count < 1) →
      (pid_autotune_update ctx input now).1.state = AutotuneState.COMPLETE ∧
      (pid_autotune_update ctx input now).1.result.ultimate_gain
        = 4 * ctx.config.output_step
          / (M_PI * ((avg_abs_step ctx.peak_high ctx.peak_count
              + avg_abs_step ctx.peak_low ctx.peak_count) / 2)) ∧
      (pid_autotune_update ctx input now).1.result.ultimate_period
        = avg_time_step ctx.peak_timestamps ctx.peak_count ∧
      (pid_autotune_update ctx input now).1.result.kp
        = (pid_autotune_update ctx input now).1.result.ultimate_gain
          * (tuning_rules ctx.rule).kp_factor ∧
      (pid_autotune_update ctx input now).1.result.ki
        = (pid_autotune_update ctx input now).1.result.kp
          / (avg_time_step ctx.peak_timestamps ctx.peak_count
              / (tuning_rules ctx.rule).ti_factor) ∧
      (pid_autotune_update ctx input now).1.result.kd
        = (pid_autotune_update ctx input now).1.result.kp
          * (avg_time_step ctx.peak_timestamps ctx.peak_count
              * (tuning_rules ctx.rule).td_factor)) := by
  rw [pid_autotune_update_calculating_branch ctx input now hstate htmo]
  unfold autotune_calculating_step
  dsimp only
  rw [calculate_amplitude_eq ctx.peak_high ctx.peak_count,
    calculate_amplitude_eq ctx.peak_low ctx.peak_count,
    calculate_period_eq ctx.peak_timestamps ctx.peak_count hsum]
  constructor
  · intro hdeg
    rw [if_pos hdeg]
    exact ⟨rfl, rfl⟩
  · intro hok
    rw [if_neg hok]
    exact ⟨rfl, rfl, rfl, rfl, rfl, rfl⟩

/-- Witness for C3: on the clean oscillation (amplitude 2 °C, period 10 s)
the calculating step completes and stores period 10 and
`kp = Ku · 0.45` for the Tyreus-Luyben rule. -/
theorem C3_autotune_calculating_witness :
    (pid_autotune_update ctxCalc 140 40).1.state = AutotuneState.COMPLETE ∧
    (pid_autotune_update ctxCalc 140 40).1.result.ultimate_period = 10 ∧
    (pid_autotune_update ctxCalc 140 40).1.result.kp
      = (pid_autotune_update ctxCalc 140 40).1.result.ultimate_gain * (45/100) := by
  have hamp_high : avg_abs_step ctxCalc.peak_high ctxCalc.peak_count = 2 := by
    show avg_abs_step [150, 152, 150, 152, 0, 0, 0, 0, 0, 0] 4 = 2
    norm_num [avg_abs_step, List.range_succ, abs, max_def]
  have hamp_low : avg_abs_step ctxCalc.peak_low ctxCalc.peak_count = 2 := by
    show avg_abs_step [130, 128, 130, 128, 0, 0, 0, 0, 0, 0] 4 = 2
    norm_num [avg_abs_step, List.range_succ, abs, max_def]
  have hper : avg_time_step ctxCalc.peak_timestamps ctxCalc.peak_count = 10 := by
    show avg_time_step [0, 10, 20, 30, 0, 0, 0, 0, 0, 0] 4 = 10
    norm_num [avg_time_step, List.range_succ, sub32]
  have h := C3_autotune_calculating ctxCalc 140 40 rfl (by decide) (by decide)
  have hok := h.2 (by rw [hamp_high, hamp_low, hper]; norm_num)
  refine ⟨hok.1, by rw [hok.2.2.1, hper], ?_⟩
  rw [hok.2.2.2.1]
  show _ = _ * (tuning_rules TuningRule.TYREUS_LUYBEN).kp_factor
  rfl

end Insta221
